import Mathlib

/-!
Shallow embedding of the multi-provider AI chat client of
src/enhanced_ai_provider.py (class MultiAIProvider), together with
theorems settling the specification claims about it.

The network is abstracted as an oracle mapping a provider and the
message list sent to it to an outcome (success with a content string,
or failure with an error message); everything else is translated
directly from the Python source: provider initialization from the
environment, primary selection, fallback choice, the chat-completion
control flow, the Anthropic wire-format translation, and the status
query.
-/

namespace AgentBanks

/-- The `AIProvider` enum of the source, in declaration order. -/
inductive AIProvider where
  | anthropic
  | openrouter
  | perplexity
  | deepseek
  deriving DecidableEq

/-- The `.value` of each enum member. -/
def AIProvider.value : AIProvider → String
  | .anthropic => "anthropic"
  | .openrouter => "openrouter"
  | .perplexity => "perplexity"
  | .deepseek => "deepseek"

/-- The `AIProviderConfig` dataclass. -/
structure AIProviderConfig where
  name : String
  api_key : String
  base_url : String
  model : String
  max_tokens : Nat
  available : Bool := true
  deriving DecidableEq

/-- The environment: each provider key variable is `none` when unset,
`some s` when set to the string `s` (possibly empty). -/
structure Env where
  anthropic_api_key : Option String
  openrouter_api_key : Option String
  perplexity_api_key : Option String
  deepseek_api_key : Option String
  deriving DecidableEq

/-- Python truthiness of an `os.getenv` result: set and non-empty. -/
def truthy : Option String → Bool
  | none => false
  | some s => decide (s ≠ "")

/-- The string value of an environment variable used once it tested truthy. -/
def keyOf : Option String → String
  | none => ""
  | some s => s

/-- Anthropic block of `_initialize_providers`: configured iff
`ANTHROPIC_API_KEY` is truthy. -/
def anthropicEntries (env : Env) : List (AIProvider × AIProviderConfig) :=
  if truthy env.anthropic_api_key then
    [(AIProvider.anthropic,
      { name := "Anthropic Claude"
        api_key := keyOf env.anthropic_api_key
        base_url := "https://api.anthropic.com/v1/messages"
        model := "claude-3-sonnet-20240229"
        max_tokens := 4000
        available := true })]
  else []

/-- OpenRouter block of `_initialize_providers`: uses its own key when
truthy, else falls back to the Anthropic key when that is truthy. -/
def openrouterEntries (env : Env) : List (AIProvider × AIProviderConfig) :=
  if truthy env.openrouter_api_key then
    [(AIProvider.openrouter,
      { name := "OpenRouter"
        api_key := keyOf env.openrouter_api_key
        base_url := "https://openrouter.ai/api/v1/chat/completions"
        model := "anthropic/claude-3-sonnet"
        max_tokens := 4000
        available := true })]
  else if truthy env.anthropic_api_key then
    [(AIProvider.openrouter,
      { name := "OpenRouter (Anthropic Key)"
        api_key := keyOf env.anthropic_api_key
        base_url := "https://openrouter.ai/api/v1/chat/completions"
        model := "anthropic/claude-3-sonnet"
        max_tokens := 4000
        available := true })]
  else []

/-- Perplexity block of `_initialize_providers`. -/
def perplexityEntries (env : Env) : List (AIProvider × AIProviderConfig) :=
  if truthy env.perplexity_api_key then
    [(AIProvider.perplexity,
      { name := "Perplexity AI"
        api_key := keyOf env.perplexity_api_key
        base_url := "https://api.perplexity.ai/chat/completions"
        model := "pplx-70b-online"
        max_tokens := 4096 })]
  else []

/-- DeepSeek block of `_initialize_providers`. -/
def deepseekEntries (env : Env) : List (AIProvider × AIProviderConfig) :=
  if truthy env.deepseek_api_key then
    [(AIProvider.deepseek,
      { name := "DeepSeek"
        api_key := keyOf env.deepseek_api_key
        base_url := "https://api.deepseek.com/v1/chat/completions"
        model := "deepseek-chat"
        max_tokens := 4096 })]
  else []

/-- `MultiAIProvider._initialize_providers`: the insertion-ordered
provider dict, modelled as an association list. -/
def initializeProviders (env : Env) : List (AIProvider × AIProviderConfig) :=
  anthropicEntries env ++ openrouterEntries env ++
    perplexityEntries env ++ deepseekEntries env

/-- Python dict lookup `self.providers[p]` on the association list. -/
def lookupConfig : List (AIProvider × AIProviderConfig) → AIProvider →
    Option AIProviderConfig
  | [], _ => none
  | (q, c) :: rest, p => if p = q then some c else lookupConfig rest p

/-- `MultiAIProvider._select_primary_provider`: Anthropic if configured,
else OpenRouter if configured, else a `ValueError`. -/
def selectPrimaryProvider (providers : List (AIProvider × AIProviderConfig)) :
    Except String AIProvider :=
  if (lookupConfig providers AIProvider.anthropic).isSome then
    .ok AIProvider.anthropic
  else if (lookupConfig providers AIProvider.openrouter).isSome then
    .ok AIProvider.openrouter
  else
    .error "No AI providers configured! Please set ANTHROPIC_API_KEY or OPENROUTER_API_KEY"

/-- The state of a `MultiAIProvider` instance (the persona fields are
untouched by every operation modelled here and are omitted). -/
structure MultiAIProvider where
  providers : List (AIProvider × AIProviderConfig)
  current_provider : AIProvider
  deriving DecidableEq

/-- `MultiAIProvider.__init__`: build the provider set and select the
primary; the `ValueError` of selection propagates out of the constructor. -/
def MultiAIProvider.init (env : Env) : Except String MultiAIProvider :=
  let providers := initializeProviders env
  match selectPrimaryProvider providers with
  | .ok p => .ok { providers := providers, current_provider := p }
  | .error e => .error e

/-- `MultiAIProvider._get_fallback_provider`: first configured provider
other than the current one, in insertion order. -/
def MultiAIProvider.getFallbackProvider (st : MultiAIProvider) :
    Option AIProvider :=
  let available := st.providers.map Prod.fst
  let available :=
    if st.current_provider ∈ available then available.erase st.current_provider
    else available
  available.head?

/-- A chat message dict with `role` and `content` fields. -/
structure ChatMessage where
  role : String
  content : String
  deriving DecidableEq

/-- Outcome of one HTTP request: success with the extracted response
text, or failure (non-2xx status, network error, or an unparseable
body, all of which the source turns into a raised exception). -/
inductive NetworkOutcome where
  | success (content : String)
  | failure (error : String)
  deriving DecidableEq

/-- The network, abstracted: what each provider answers to a request
carrying the given message list. -/
def NetworkOracle := AIProvider → List ChatMessage → NetworkOutcome

/-- The normalized result a `_call_<provider>` method returns: every one
of them tags the response with the provider's enum value. -/
structure ProviderResult where
  provider : String
  content : String
  deriving DecidableEq

/-- `MultiAIProvider._call_provider`: look the provider up in the dict
(a missing key raises) and perform its network call; on success the
result is tagged with the provider's enum value. -/
def MultiAIProvider.callProvider (st : MultiAIProvider)
    (oracle : NetworkOracle) (p : AIProvider) (messages : List ChatMessage) :
    Except String ProviderResult :=
  match lookupConfig st.providers p with
  | none => .error ("KeyError: " ++ p.value)
  | some _ =>
    match oracle p messages with
    | .success c => .ok { provider := p.value, content := c }
    | .failure e => .error e

/-- Everything observable about one `chat_completion` call: its result,
the providers attempted in order, the logged failures in order, and the
state of the instance after the call. -/
structure ChatOutcome where
  result : Except String ProviderResult
  attempts : List AIProvider
  failures : List (AIProvider × String)
  post : MultiAIProvider

/-- `MultiAIProvider.chat_completion`: try the current (primary)
provider; on an exception, try the single fallback provider if there is
one; if that also fails, or there is none, raise an error built from
the primary failure's message. -/
def MultiAIProvider.chatCompletion (st : MultiAIProvider)
    (oracle : NetworkOracle) (messages : List ChatMessage) : ChatOutcome :=
  match st.callProvider oracle st.current_provider messages with
  | .ok r =>
      { result := .ok r, attempts := [st.current_provider],
        failures := [], post := st }
  | .error e =>
    match st.getFallbackProvider with
    | some fb =>
      match st.callProvider oracle fb messages with
      | .ok r =>
          { result := .ok r, attempts := [st.current_provider, fb],
            failures := [(st.current_provider, e)], post := st }
      | .error e2 =>
          { result := .error ("All AI providers failed. Primary: " ++ e),
            attempts := [st.current_provider, fb],
            failures := [(st.current_provider, e), (fb, e2)], post := st }
    | none =>
        { result := .error ("All AI providers failed. Primary: " ++ e),
          attempts := [st.current_provider],
          failures := [(st.current_provider, e)], post := st }

/-- The Anthropic request payload built by `_call_anthropic`:
`system := none` models the `system` field being absent. -/
structure AnthropicPayload where
  model : String
  max_tokens : Nat
  messages : List ChatMessage
  system : Option String
  deriving DecidableEq

/-- The message-splitting loop of `_call_anthropic`: the running pair of
`system_message` (initially the empty string, overwritten by each
system-role message) and `user_messages` (the rest, appended in order). -/
def anthropicSplit (messages : List ChatMessage) : String × List ChatMessage :=
  messages.foldl
    (fun acc msg =>
      if msg.role = "system" then (msg.content, acc.2)
      else (acc.1, acc.2 ++ [msg]))
    ("", [])

/-- The payload `_call_anthropic` sends: the `system` field is set only
when the accumulated system message is truthy (non-empty). -/
def anthropicPayload (config : AIProviderConfig)
    (messages : List ChatMessage) : AnthropicPayload :=
  let split := anthropicSplit messages
  { model := config.model
    max_tokens := config.max_tokens
    messages := split.2
    system := if split.1 ≠ "" then some split.1 else none }

/-- One entry of the `providers` map of `get_provider_status`. -/
structure ProviderStatusEntry where
  name : String
  model : String
  available : Bool
  api_key_set : Bool
  deriving DecidableEq

/-- `MultiAIProvider.get_provider_status`: the primary provider's value
and, per configured provider, its status entry
(`api_key_set = bool(config.api_key)`). -/
def MultiAIProvider.getProviderStatus (st : MultiAIProvider) :
    String × List (String × ProviderStatusEntry) :=
  (st.current_provider.value,
   st.providers.map fun pc =>
     (pc.1.value,
      { name := pc.2.name, model := pc.2.model,
        available := pc.2.available,
        api_key_set := decide (pc.2.api_key ≠ "") }))

/-- Whether a network outcome is a failure. -/
def NetworkOutcome.isFailure : NetworkOutcome → Bool
  | .success _ => false
  | .failure _ => true

/-- The environment variable that belongs to a given provider. -/
def ownKey (env : Env) : AIProvider → Option String
  | .anthropic => env.anthropic_api_key
  | .openrouter => env.openrouter_api_key
  | .perplexity => env.perplexity_api_key
  | .deepseek => env.deepseek_api_key

/-- Content of the last system-role message of a list, if any: the value
`system_message` holds after the loop of `_call_anthropic`. -/
def lastSystemContent : List ChatMessage → Option String
  | [] => none
  | m :: rest =>
    match lastSystemContent rest with
    | some c => some c
    | none => if m.role = "system" then some m.content else none

/-- Fixture: environment with Anthropic and OpenRouter keys set. -/
def envAO : Env :=
  { anthropic_api_key := some "a-key", openrouter_api_key := some "o-key"
    perplexity_api_key := none, deepseek_api_key := none }

/-- Fixture: environment configuring three providers. -/
def envThree : Env :=
  { anthropic_api_key := some "a-key", openrouter_api_key := some "o-key"
    perplexity_api_key := some "p-key", deepseek_api_key := none }

/-- Fixture: environment where only the Perplexity key is set. -/
def envOnlyPerplexity : Env :=
  { anthropic_api_key := none, openrouter_api_key := none
    perplexity_api_key := some "p-key", deepseek_api_key := none }

/-- Fixture: Anthropic key set, OpenRouter key set to the empty string. -/
def envEmptyOpenrouter : Env :=
  { anthropic_api_key := some "a-key", openrouter_api_key := some ""
    perplexity_api_key := none, deepseek_api_key := none }

/-- Fixture: the client state `MultiAIProvider.init envAO` produces. -/
def stAO : MultiAIProvider :=
  { providers := initializeProviders envAO
    current_provider := AIProvider.anthropic }

/-- Fixture: the client state `MultiAIProvider.init envThree` produces. -/
def stThree : MultiAIProvider :=
  { providers := initializeProviders envThree
    current_provider := AIProvider.anthropic }

/-- Fixture: the client state `MultiAIProvider.init envEmptyOpenrouter`
produces. -/
def stEmptyOpenrouter : MultiAIProvider :=
  { providers := initializeProviders envEmptyOpenrouter
    current_provider := AIProvider.anthropic }

/-- Fixture: a network where every provider call fails. -/
def oracleFailAll : NetworkOracle := fun p _ =>
  .failure ("err-" ++ p.value)

/-- Fixture: a network where every provider call succeeds. -/
def oracleOkAll : NetworkOracle := fun p _ =>
  .success ("ok-" ++ p.value)

/-- Fixture: a network where Anthropic returns HTTP 429 and every other
provider answers. -/
def oraclePrimaryDown : NetworkOracle := fun p _ =>
  if p = AIProvider.anthropic then .failure "HTTP 429" else .success "Hello!"

/-- Fixture: one user message. -/
def msgHi : ChatMessage := { role := "user", content := "Hi" }

/-- Fixture: a message list whose single system message has empty content. -/
def msgsEmptySystem : List ChatMessage :=
  [{ role := "system", content := "" }, { role := "user", content := "Hi" }]

/-- Fixture: an Anthropic provider configuration. -/
def cfgAnthropicEx : AIProviderConfig :=
  { name := "Anthropic Claude", api_key := "a-key"
    base_url := "https://api.anthropic.com/v1/messages"
    model := "claude-3-sonnet-20240229", max_tokens := 4000
    available := true }

/-- A truthy environment variable holds a non-empty string. -/
theorem truthy_keyOf {o : Option String} (h : truthy o = true) : keyOf o ≠ "" := by
  cases o with
  | none => simp [truthy] at h
  | some s => simpa [truthy, keyOf] using h

/-- Looking a key up in an appended association list tries the left part
first. -/
theorem lookupConfig_append (l₁ l₂ : List (AIProvider × AIProviderConfig))
    (p : AIProvider) :
    lookupConfig (l₁ ++ l₂) p =
      (match lookupConfig l₁ p with
       | some c => some c
       | none => lookupConfig l₂ p) := by
  induction l₁ with
  | nil => simp [lookupConfig]
  | cons hd tl ih =>
    obtain ⟨q, c⟩ := hd
    by_cases hq : p = q <;> simp [lookupConfig, hq, ih]

/-- A key is found exactly when it occurs among the list's keys. -/
theorem lookupConfig_isSome_iff (l : List (AIProvider × AIProviderConfig))
    (p : AIProvider) :
    (lookupConfig l p).isSome = true ↔ p ∈ l.map Prod.fst := by
  induction l with
  | nil => simp [lookupConfig]
  | cons hd tl ih =>
    obtain ⟨q, c⟩ := hd
    by_cases hq : p = q <;> simp [lookupConfig, hq, ih]

/-- A key is missing exactly when it is absent from the list's keys. -/
theorem lookupConfig_eq_none_iff (l : List (AIProvider × AIProviderConfig))
    (p : AIProvider) :
    lookupConfig l p = none ↔ p ∉ l.map Prod.fst := by
  rw [← lookupConfig_isSome_iff]
  cases lookupConfig l p <;> simp

/-- The keys of the configured provider map, by truthiness of the four
environment variables. -/
theorem keys_initializeProviders (env : Env) :
    (initializeProviders env).map Prod.fst =
      ((if truthy env.anthropic_api_key then [AIProvider.anthropic] else []) ++
       (if truthy env.openrouter_api_key || truthy env.anthropic_api_key then
          [AIProvider.openrouter] else []) ++
       (if truthy env.perplexity_api_key then [AIProvider.perplexity] else []) ++
       (if truthy env.deepseek_api_key then [AIProvider.deepseek] else [])) := by
  cases h1 : truthy env.anthropic_api_key <;>
    cases h2 : truthy env.openrouter_api_key <;>
      cases h3 : truthy env.perplexity_api_key <;>
        cases h4 : truthy env.deepseek_api_key <;>
          simp [initializeProviders, anthropicEntries, openrouterEntries,
            perplexityEntries, deepseekEntries, h1, h2, h3, h4]

/-- The configured provider map has pairwise distinct keys. -/
theorem keys_nodup (env : Env) :
    ((initializeProviders env).map Prod.fst).Nodup := by
  rw [keys_initializeProviders]
  split_ifs <;> simp

/-- `__init__` characterized: Anthropic primary if its key is truthy,
else OpenRouter primary if its key is truthy, else a `ValueError`. -/
theorem init_eq (env : Env) :
    MultiAIProvider.init env =
      (if truthy env.anthropic_api_key then
        .ok { providers := initializeProviders env
              current_provider := AIProvider.anthropic }
      else if truthy env.openrouter_api_key then
        .ok { providers := initializeProviders env
              current_provider := AIProvider.openrouter }
      else
        .error "No AI providers configured! Please set ANTHROPIC_API_KEY or OPENROUTER_API_KEY") := by
  have hsel : selectPrimaryProvider (initializeProviders env) =
      (if truthy env.anthropic_api_key then .ok AIProvider.anthropic
       else if truthy env.openrouter_api_key then .ok AIProvider.openrouter
       else .error "No AI providers configured! Please set ANTHROPIC_API_KEY or OPENROUTER_API_KEY") := by
    cases h1 : truthy env.anthropic_api_key <;>
      cases h2 : truthy env.openrouter_api_key <;>
        cases h3 : truthy env.perplexity_api_key <;>
          cases h4 : truthy env.deepseek_api_key <;>
            simp [selectPrimaryProvider, initializeProviders, anthropicEntries,
              openrouterEntries, perplexityEntries, deepseekEntries,
              h1, h2, h3, h4, lookupConfig]
  simp only [MultiAIProvider.init, hsel]
  split_ifs <;> rfl

/-- A successfully constructed client holds exactly the provider map
built from the environment. -/
theorem init_providers {env : Env} {st : MultiAIProvider}
    (h : MultiAIProvider.init env = .ok st) :
    st.providers = initializeProviders env := by
  rw [init_eq] at h
  split_ifs at h
  · injection h with h2; subst h2; rfl
  · injection h with h2; subst h2; rfl

/-- In a successfully constructed client, the primary provider is the
first key of the provider map. -/
theorem init_keys_head {env : Env} {st : MultiAIProvider}
    (h : MultiAIProvider.init env = .ok st) :
    (st.providers.map Prod.fst).head? = some st.current_provider := by
  rw [init_eq] at h
  split_ifs at h with h1 h2
  · injection h with h2; subst h2
    simp [keys_initializeProviders, h1]
  · injection h with h3; subst h3
    simp [keys_initializeProviders, h1, h2]

/-- In a successfully constructed client, the primary provider occurs in
the provider map. -/
theorem init_current_mem {env : Env} {st : MultiAIProvider}
    (h : MultiAIProvider.init env = .ok st) :
    st.current_provider ∈ st.providers.map Prod.fst := by
  have hh := init_keys_head h
  cases hk : st.providers.map Prod.fst with
  | nil => rw [hk] at hh; exact Option.noConfusion hh
  | cons a tl =>
    rw [hk] at hh
    simp only [List.head?_cons, Option.some.injEq] at hh
    rw [hh]
    exact List.mem_cons_self _ _

/-- In a successfully constructed client, looking the primary provider
up in the provider dict succeeds. -/
theorem init_lookup_current {env : Env} {st : MultiAIProvider}
    (h : MultiAIProvider.init env = .ok st) :
    ∃ c, lookupConfig st.providers st.current_provider = some c := by
  have hm := init_current_mem h
  have hs := (lookupConfig_isSome_iff st.providers st.current_provider).mpr hm
  exact Option.isSome_iff_exists.mp hs

/-- In a successfully constructed client, the fallback provider is the
second key of the provider map. -/
theorem init_getFallback {env : Env} {st : MultiAIProvider}
    (h : MultiAIProvider.init env = .ok st) :
    st.getFallbackProvider = (st.providers.map Prod.fst).tail.head? := by
  have hh := init_keys_head h
  unfold MultiAIProvider.getFallbackProvider
  cases hk : st.providers.map Prod.fst with
  | nil => rw [hk] at hh; exact Option.noConfusion hh
  | cons a tl =>
    rw [hk] at hh
    simp only [List.head?_cons, Option.some.injEq] at hh
    subst hh
    simp [List.erase_cons_head]

/-- In a successfully constructed client, a chosen fallback provider is
distinct from the primary and occurs in the provider map. -/
theorem init_fallback_spec {env : Env} {st : MultiAIProvider}
    {fb : AIProvider} (h : MultiAIProvider.init env = .ok st)
    (hfb : st.getFallbackProvider = some fb) :
    fb ≠ st.current_provider ∧ fb ∈ st.providers.map Prod.fst := by
  have hh := init_keys_head h
  have hnd : ((initializeProviders env).map Prod.fst).Nodup := keys_nodup env
  rw [← init_providers h] at hnd
  rw [init_getFallback h] at hfb
  cases hk : st.providers.map Prod.fst with
  | nil => rw [hk] at hh; exact Option.noConfusion hh
  | cons a tl =>
    rw [hk] at hh
    simp only [List.head?_cons, Option.some.injEq] at hh
    subst hh
    rw [hk] at hfb hnd
    simp only [List.tail_cons] at hfb
    have hmem : fb ∈ tl := by
      cases tl with
      | nil => exact Option.noConfusion hfb
      | cons b tl2 =>
        simp only [List.head?_cons, Option.some.injEq] at hfb
        rw [hfb]
        exact List.mem_cons_self _ _
    have hnotmem : st.current_provider ∉ tl := (List.nodup_cons.mp hnd).1
    constructor
    · intro hEq
      exact hnotmem (hEq ▸ hmem)
    · exact List.mem_cons_of_mem _ hmem

/-- One chat-completion call attempts either the primary alone, or the
primary and then the chosen fallback. -/
theorem chatCompletion_attempts_shape (st : MultiAIProvider)
    (oracle : NetworkOracle) (msgs : List ChatMessage) :
    (st.chatCompletion oracle msgs).attempts = [st.current_provider] ∨
    ∃ fb, st.getFallbackProvider = some fb ∧
      (st.chatCompletion oracle msgs).attempts = [st.current_provider, fb] := by
  cases hc : st.callProvider oracle st.current_provider msgs with
  | ok r => left; simp [MultiAIProvider.chatCompletion, hc]
  | error e =>
    cases hfb : st.getFallbackProvider with
    | none => left; simp [MultiAIProvider.chatCompletion, hc, hfb]
    | some fb =>
      cases hc2 : st.callProvider oracle fb msgs with
      | ok r => right; exact ⟨fb, rfl, by simp [MultiAIProvider.chatCompletion, hc, hfb, hc2]⟩
      | error e2 => right; exact ⟨fb, rfl, by simp [MultiAIProvider.chatCompletion, hc, hfb, hc2]⟩

/-- One chat-completion call leaves the instance state unchanged. -/
theorem chatCompletion_post (st : MultiAIProvider) (oracle : NetworkOracle)
    (msgs : List ChatMessage) :
    (st.chatCompletion oracle msgs).post = st := by
  cases hc : st.callProvider oracle st.current_provider msgs with
  | ok r => simp [MultiAIProvider.chatCompletion, hc]
  | error e =>
    cases hfb : st.getFallbackProvider with
    | none => simp [MultiAIProvider.chatCompletion, hc, hfb]
    | some fb =>
      cases hc2 : st.callProvider oracle fb msgs with
      | ok r => simp [MultiAIProvider.chatCompletion, hc, hfb, hc2]
      | error e2 => simp [MultiAIProvider.chatCompletion, hc, hfb, hc2]

/-- The first provider attempted is always the primary. -/
theorem chatCompletion_attempts_head (st : MultiAIProvider)
    (oracle : NetworkOracle) (msgs : List ChatMessage) :
    (st.chatCompletion oracle msgs).attempts.head? = some st.current_provider := by
  rcases chatCompletion_attempts_shape st oracle msgs with h | ⟨fb, _, h⟩ <;> simp [h]

/-- Every provider attempted during a call occurs in the provider map. -/
theorem chatCompletion_attempts_mem {env : Env} {st : MultiAIProvider}
    (h : MultiAIProvider.init env = .ok st) (oracle : NetworkOracle)
    (msgs : List ChatMessage) :
    ∀ q ∈ (st.chatCompletion oracle msgs).attempts,
      q ∈ st.providers.map Prod.fst := by
  intro q hq
  rcases chatCompletion_attempts_shape st oracle msgs with hsh | ⟨fb, hfb, hsh⟩
  · rw [hsh] at hq
    simp only [List.mem_singleton] at hq
    subst hq
    exact init_current_mem h
  · rw [hsh] at hq
    simp at hq
    rcases hq with rfl | rfl
    · exact init_current_mem h
    · exact (init_fallback_spec h hfb).2

/-- When the primary provider's call succeeds, the call returns its
tagged result at once: the primary is the only attempt and nothing is
logged as failed. -/
theorem chatCompletion_of_success {env : Env} {st : MultiAIProvider}
    (h : MultiAIProvider.init env = .ok st) {oracle : NetworkOracle}
    {msgs : List ChatMessage} {c : String}
    (hs : oracle st.current_provider msgs = .success c) :
    st.chatCompletion oracle msgs =
      { result := .ok { provider := st.current_provider.value, content := c }
        attempts := [st.current_provider], failures := [], post := st } := by
  obtain ⟨cfg, hcfg⟩ := init_lookup_current h
  have hc : st.callProvider oracle st.current_provider msgs =
      .ok { provider := st.current_provider.value, content := c } := by
    simp only [MultiAIProvider.callProvider, hcfg, hs]
  simp [MultiAIProvider.chatCompletion, hc]

/-- When the primary fails and the chosen fallback succeeds, the call
returns the fallback's tagged result and logs exactly the primary's
failure. -/
theorem chatCompletion_of_fallback_success {env : Env} {st : MultiAIProvider}
    (h : MultiAIProvider.init env = .ok st) {oracle : NetworkOracle}
    {msgs : List ChatMessage} {e c : String} {fb : AIProvider}
    (h1 : oracle st.current_provider msgs = .failure e)
    (hfb : st.getFallbackProvider = some fb)
    (h2 : oracle fb msgs = .success c) :
    st.chatCompletion oracle msgs =
      { result := .ok { provider := fb.value, content := c }
        attempts := [st.current_provider, fb]
        failures := [(st.current_provider, e)], post := st } := by
  obtain ⟨cfg, hcfg⟩ := init_lookup_current h
  have hfbmem := (init_fallback_spec h hfb).2
  obtain ⟨cfg2, hcfg2⟩ :=
    Option.isSome_iff_exists.mp ((lookupConfig_isSome_iff _ _).mpr hfbmem)
  have hc1 : st.callProvider oracle st.current_provider msgs = .error e := by
    simp only [MultiAIProvider.callProvider, hcfg, h1]
  have hc2 : st.callProvider oracle fb msgs =
      .ok { provider := fb.value, content := c } := by
    simp only [MultiAIProvider.callProvider, hcfg2, h2]
  simp [MultiAIProvider.chatCompletion, hc1, hfb, hc2]

/-- The provider enum's string values are pairwise distinct. -/
theorem value_injective (a b : AIProvider) (h : a.value = b.value) : a = b := by
  cases a <;> cases b <;> first | rfl | (exfalso; simp [AIProvider.value] at h)

/-- Every configuration placed in the provider map carries a non-empty
API key (it was copied from an environment variable that tested truthy). -/
theorem initializeProviders_api_key {env : Env}
    {pc : AIProvider × AIProviderConfig}
    (h : pc ∈ initializeProviders env) : pc.2.api_key ≠ "" := by
  simp only [initializeProviders, List.mem_append] at h
  rcases h with ((h | h) | h) | h
  · unfold anthropicEntries at h
    split_ifs at h with h1
    · simp only [List.mem_singleton] at h
      rw [h]
      exact truthy_keyOf h1
    · exact absurd h (List.not_mem_nil pc)
  · unfold openrouterEntries at h
    split_ifs at h with h1 h2
    · simp only [List.mem_singleton] at h
      rw [h]
      exact truthy_keyOf h1
    · simp only [List.mem_singleton] at h
      rw [h]
      exact truthy_keyOf h2
    · exact absurd h (List.not_mem_nil pc)
  · unfold perplexityEntries at h
    split_ifs at h with h1
    · simp only [List.mem_singleton] at h
      rw [h]
      exact truthy_keyOf h1
    · exact absurd h (List.not_mem_nil pc)
  · unfold deepseekEntries at h
    split_ifs at h with h1
    · simp only [List.mem_singleton] at h
      rw [h]
      exact truthy_keyOf h1
    · exact absurd h (List.not_mem_nil pc)

/-- The message loop of `_call_anthropic`, run from any accumulator:
the final system string is the last system message's content (or the
starting string when there is none), and the non-system messages are
appended in their original order. -/
theorem anthropicSplit_fold (msgs : List ChatMessage) (s : String)
    (acc : List ChatMessage) :
    msgs.foldl
      (fun a msg =>
        if msg.role = "system" then (msg.content, a.2) else (a.1, a.2 ++ [msg]))
      (s, acc) =
    ((lastSystemContent msgs).getD s,
     acc ++ msgs.filter (fun m => m.role != "system")) := by
  induction msgs generalizing s acc with
  | nil => simp [lastSystemContent]
  | cons m rest ih =>
    by_cases hm : m.role = "system"
    · rw [List.foldl_cons]
      simp only [if_pos hm]
      rw [ih]
      cases hls : lastSystemContent rest <;>
        simp [lastSystemContent, hls, hm, List.filter_cons]
    · rw [List.foldl_cons]
      simp only [if_neg hm]
      rw [ih]
      cases hls : lastSystemContent rest <;>
        simp [lastSystemContent, hls, hm, List.filter_cons, bne_iff_ne]

/-- `anthropicSplit` computed: last system content (empty string when
none) and the non-system messages in order. -/
theorem anthropicSplit_eq (msgs : List ChatMessage) :
    anthropicSplit msgs =
      ((lastSystemContent msgs).getD "",
       msgs.filter (fun m => m.role != "system")) := by
  unfold anthropicSplit
  rw [anthropicSplit_fold]
  rw [List.nil_append]

/-- A list without system messages yields no system content. -/
theorem lastSystemContent_of_no_system {msgs : List ChatMessage}
    (h : ∀ m ∈ msgs, m.role ≠ "system") :
    lastSystemContent msgs = none := by
  induction msgs with
  | nil => rfl
  | cons m rest ih =>
    have hm := h m (List.mem_cons_self _ _)
    have hrest := ih fun x hx => h x (List.mem_cons_of_mem _ hx)
    simp [lastSystemContent, hrest, hm]

/-- With at most one system message, the last system content is the
first (unique) system message's content. -/
theorem lastSystemContent_of_count_le_one {msgs : List ChatMessage}
    (h : (msgs.filter (fun m => m.role == "system")).length ≤ 1) :
    lastSystemContent msgs =
      (msgs.find? (fun m => m.role == "system")).map (fun m => m.content) := by
  induction msgs with
  | nil => rfl
  | cons m rest ih =>
    by_cases hm : m.role = "system"
    · have hbeq : (m.role == "system") = true := by simp [hm]
      have hcount : (rest.filter (fun x => x.role == "system")).length = 0 := by
        rw [List.filter_cons] at h
        simp only [hbeq, if_pos] at h
        simp only [List.length_cons] at h
        omega
      have hnone : lastSystemContent rest = none := by
        apply lastSystemContent_of_no_system
        intro x hx hxr
        have hmemf : x ∈ rest.filter (fun x => x.role == "system") :=
          List.mem_filter.mpr ⟨hx, by simp [hxr]⟩
        rw [List.length_eq_zero] at hcount
        rw [hcount] at hmemf
        exact absurd hmemf (List.not_mem_nil x)
      simp [lastSystemContent, hnone, hm, List.find?_cons, hbeq]
    · have hbeq : (m.role == "system") = false := by simp [hm]
      have h2 : (rest.filter (fun x => x.role == "system")).length ≤ 1 := by
        rw [List.filter_cons] at h
        simp only [hbeq, if_neg, Bool.false_eq_true, if_false] at h
        exact h
      have hstep : lastSystemContent (m :: rest) = lastSystemContent rest := by
        cases hls : lastSystemContent rest <;> simp [lastSystemContent, hls, hm]
      rw [hstep, ih h2]
      simp [List.find?_cons, hbeq]

/-- C1 is false of the code: with three providers configured and every
network call failing, only two providers are attempted, the failure log
has two entries rather than three, and the raised error carries only the
primary provider's message. -/
theorem C1_counterexample :
    MultiAIProvider.init envThree = .ok stThree ∧
    stThree.providers.length = 3 ∧
    (stThree.chatCompletion oracleFailAll [msgHi]).attempts.length = 2 ∧
    (stThree.chatCompletion oracleFailAll [msgHi]).failures.length = 2 ∧
    (stThree.chatCompletion oracleFailAll [msgHi]).failures.length ≠
      stThree.providers.length ∧
    (stThree.chatCompletion oracleFailAll [msgHi]).result =
      .error "All AI providers failed. Primary: err-anthropic" :=
  ⟨rfl, rfl, rfl, rfl, by decide, rfl⟩

/-- C1 (amended): when every provider call fails, chat completion attempts
the primary and at most one fallback — not every configured provider —
with each attempted provider contributing exactly one failure entry tagged
with its name, and raises a single error carrying the primary provider's
error message. -/
theorem C1_all_fail {env : Env} {st : MultiAIProvider} {oracle : NetworkOracle}
    {msgs : List ChatMessage} {e₁ : String}
    (h : MultiAIProvider.init env = .ok st)
    (h1 : oracle st.current_provider msgs = .failure e₁)
    (hall : ∀ p m, (oracle p m).isFailure = true) :
    (st.chatCompletion oracle msgs).result =
      .error ("All AI providers failed. Primary: " ++ e₁) ∧
    (st.chatCompletion oracle msgs).attempts.length ≤ 2 ∧
    (st.chatCompletion oracle msgs).attempts.head? = some st.current_provider ∧
    (st.chatCompletion oracle msgs).failures.map Prod.fst =
      (st.chatCompletion oracle msgs).attempts := by
  obtain ⟨cfg, hcfg⟩ := init_lookup_current h
  have hc1 : st.callProvider oracle st.current_provider msgs = .error e₁ := by
    simp only [MultiAIProvider.callProvider, hcfg, h1]
  cases hfb : st.getFallbackProvider with
  | none => simp [MultiAIProvider.chatCompletion, hc1, hfb]
  | some fb =>
    have hfbmem := (init_fallback_spec h hfb).2
    obtain ⟨cfg2, hcfg2⟩ :=
      Option.isSome_iff_exists.mp ((lookupConfig_isSome_iff _ _).mpr hfbmem)
    cases hofb : oracle fb msgs with
    | success c =>
      have hbad := hall fb msgs
      rw [hofb] at hbad
      simp [NetworkOutcome.isFailure] at hbad
    | failure e₂ =>
      have hc2 : st.callProvider oracle fb msgs = .error e₂ := by
        simp only [MultiAIProvider.callProvider, hcfg2, hofb]
      simp [MultiAIProvider.chatCompletion, hc1, hfb, hc2]

/-- Witness for C1 (amended) at a concrete three-provider configuration
with a network failing every call. -/
theorem C1_all_fail_witness :
    (stThree.chatCompletion oracleFailAll [msgHi]).result =
      .error ("All AI providers failed. Primary: " ++ "err-anthropic") ∧
    (stThree.chatCompletion oracleFailAll [msgHi]).attempts.length ≤ 2 ∧
    (stThree.chatCompletion oracleFailAll [msgHi]).attempts.head? =
      some stThree.current_provider ∧
    (stThree.chatCompletion oracleFailAll [msgHi]).failures.map Prod.fst =
      (stThree.chatCompletion oracleFailAll [msgHi]).attempts :=
  @C1_all_fail envThree stThree oracleFailAll [msgHi] "err-anthropic" rfl rfl
    (fun _ _ => rfl)

/-- C2 is false of the code: on the empty message list no validation error
is raised before providers are attempted; the primary provider is called
over the network and its result is returned. -/
theorem C2_counterexample :
    MultiAIProvider.init envAO = .ok stAO ∧
    (stAO.chatCompletion oracleOkAll []).attempts = [AIProvider.anthropic] ∧
    (stAO.chatCompletion oracleOkAll []).result =
      .ok { provider := "anthropic", content := "ok-anthropic" } :=
  ⟨rfl, rfl, rfl⟩

/-- C2 (amended): chat completion performs no input validation: even for
the empty message list the primary provider is attempted (a network call
is made) exactly as for any other input. -/
theorem C2_no_validation (st : MultiAIProvider) (oracle : NetworkOracle) :
    (st.chatCompletion oracle []).attempts.head? = some st.current_provider ∧
    (st.chatCompletion oracle []).attempts ≠ [] := by
  refine ⟨chatCompletion_attempts_head st oracle [], ?_⟩
  intro hnil
  have hh := chatCompletion_attempts_head st oracle []
  rw [hnil] at hh
  exact Option.noConfusion hh

/-- C3 is false of the code: with only the Perplexity key set, the
configured set is non-empty and its member's API key is non-empty, yet
primary selection raises a `ValueError` instead of returning the first
configured provider. -/
theorem C3_counterexample :
    lookupConfig (initializeProviders envOnlyPerplexity) AIProvider.perplexity =
      some { name := "Perplexity AI", api_key := "p-key"
             base_url := "https://api.perplexity.ai/chat/completions"
             model := "pplx-70b-online", max_tokens := 4096, available := true } ∧
    selectPrimaryProvider (initializeProviders envOnlyPerplexity) =
      .error "No AI providers configured! Please set ANTHROPIC_API_KEY or OPENROUTER_API_KEY" ∧
    MultiAIProvider.init envOnlyPerplexity =
      .error "No AI providers configured! Please set ANTHROPIC_API_KEY or OPENROUTER_API_KEY" :=
  ⟨rfl, rfl, rfl⟩

/-- C3 (amended): primary selection considers only Anthropic and
OpenRouter: it returns Anthropic when its key is truthy, else OpenRouter
when its key is truthy, and otherwise raises — even when Perplexity or
DeepSeek are configured; when it returns, the primary is the single
provider so selected. -/
theorem C3_primary_selection (env : Env) :
    selectPrimaryProvider (initializeProviders env) =
      (if truthy env.anthropic_api_key then .ok AIProvider.anthropic
       else if truthy env.openrouter_api_key then .ok AIProvider.openrouter
       else .error "No AI providers configured! Please set ANTHROPIC_API_KEY or OPENROUTER_API_KEY") := by
  cases h1 : truthy env.anthropic_api_key <;>
    cases h2 : truthy env.openrouter_api_key <;>
      cases h3 : truthy env.perplexity_api_key <;>
        cases h4 : truthy env.deepseek_api_key <;>
          simp [selectPrimaryProvider, initializeProviders, anthropicEntries,
            openrouterEntries, perplexityEntries, deepseekEntries,
            h1, h2, h3, h4, lookupConfig]

/-- C4 is false of the code: with the OpenRouter key set to the empty
string and the Anthropic key present, OpenRouter is nevertheless
configured (with the Anthropic key), reported by the status query, and
attempted as the fallback. -/
theorem C4_counterexample :
    truthy envEmptyOpenrouter.openrouter_api_key = false ∧
    lookupConfig (initializeProviders envEmptyOpenrouter) AIProvider.openrouter =
      some { name := "OpenRouter (Anthropic Key)", api_key := "a-key"
             base_url := "https://openrouter.ai/api/v1/chat/completions"
             model := "anthropic/claude-3-sonnet", max_tokens := 4000
             available := true } ∧
    MultiAIProvider.init envEmptyOpenrouter = .ok stEmptyOpenrouter ∧
    (stEmptyOpenrouter.getProviderStatus).2.map Prod.fst =
      ["anthropic", "openrouter"] ∧
    (stEmptyOpenrouter.chatCompletion oracleFailAll [msgHi]).attempts =
      [AIProvider.anthropic, AIProvider.openrouter] :=
  ⟨rfl, rfl, rfl, rfl, rfl⟩

/-- C4 (amended): for every provider other than OpenRouter, an unset or
empty own API key means exclusion from the configured set, from the
status report, and from every attempt of any chat-completion call;
OpenRouter alone may remain configured with the Anthropic key when its
own key is missing. -/
theorem C4_exclusion {env : Env} {p : AIProvider} {st : MultiAIProvider}
    (oracle : NetworkOracle) (msgs : List ChatMessage)
    (hp : p ≠ AIProvider.openrouter)
    (hk : truthy (ownKey env p) = false)
    (h : MultiAIProvider.init env = .ok st) :
    lookupConfig st.providers p = none ∧
    p.value ∉ (st.getProviderStatus).2.map Prod.fst ∧
    p ∉ (st.chatCompletion oracle msgs).attempts := by
  have hprov := init_providers h
  have hnotkeys : p ∉ (initializeProviders env).map Prod.fst := by
    rw [keys_initializeProviders]
    cases p with
    | openrouter => exact absurd rfl hp
    | anthropic =>
      simp only [ownKey] at hk
      cases h2 : truthy env.openrouter_api_key <;>
        cases h3 : truthy env.perplexity_api_key <;>
          cases h4 : truthy env.deepseek_api_key <;>
            simp [hk, h2, h3, h4]
    | perplexity =>
      simp only [ownKey] at hk
      cases h1 : truthy env.anthropic_api_key <;>
        cases h2 : truthy env.openrouter_api_key <;>
          cases h4 : truthy env.deepseek_api_key <;>
            simp [hk, h1, h2, h4]
    | deepseek =>
      simp only [ownKey] at hk
      cases h1 : truthy env.anthropic_api_key <;>
        cases h2 : truthy env.openrouter_api_key <;>
          cases h3 : truthy env.perplexity_api_key <;>
            simp [hk, h1, h2, h3]
  have hnotkeys2 : p ∉ st.providers.map Prod.fst := by
    rw [hprov]; exact hnotkeys
  refine ⟨(lookupConfig_eq_none_iff _ _).mpr hnotkeys2, ?_, ?_⟩
  · intro hmem
    simp only [MultiAIProvider.getProviderStatus, List.map_map] at hmem
    obtain ⟨pc2, hpc2, hval⟩ := List.mem_map.mp hmem
    have : pc2.1 = p := value_injective _ _ hval
    exact hnotkeys2 (this ▸ List.mem_map_of_mem Prod.fst hpc2)
  · intro hin
    exact hnotkeys2 (chatCompletion_attempts_mem h oracle msgs p hin)

/-- Witness for C4 (amended): Perplexity, with no key in an environment
configuring Anthropic and OpenRouter, is neither configured, nor
reported, nor attempted. -/
theorem C4_exclusion_witness :
    lookupConfig stAO.providers AIProvider.perplexity = none ∧
    AIProvider.perplexity.value ∉ (stAO.getProviderStatus).2.map Prod.fst ∧
    AIProvider.perplexity ∉ (stAO.chatCompletion oracleFailAll [msgHi]).attempts :=
  @C4_exclusion envAO AIProvider.perplexity stAO oracleFailAll [msgHi]
    (by decide) rfl rfl

/-- C5: when the primary provider's attempt succeeds, chat completion
returns its normalized, provider-tagged result immediately; the primary is
the only provider attempted and nothing is logged as failed. -/
theorem C5_primary_success {env : Env} {st : MultiAIProvider}
    {oracle : NetworkOracle} {msgs : List ChatMessage} {c : String}
    (h : MultiAIProvider.init env = .ok st)
    (hs : oracle st.current_provider msgs = .success c) :
    (st.chatCompletion oracle msgs).result =
      .ok { provider := st.current_provider.value, content := c } ∧
    (st.chatCompletion oracle msgs).attempts = [st.current_provider] ∧
    (st.chatCompletion oracle msgs).failures = [] := by
  rw [chatCompletion_of_success h hs]
  exact ⟨rfl, rfl, rfl⟩

/-- Witness for C5 at a concrete two-provider configuration whose primary
succeeds. -/
theorem C5_primary_success_witness :
    (stAO.chatCompletion oracleOkAll [msgHi]).result =
      .ok { provider := stAO.current_provider.value, content := "ok-anthropic" } ∧
    (stAO.chatCompletion oracleOkAll [msgHi]).attempts = [stAO.current_provider] ∧
    (stAO.chatCompletion oracleOkAll [msgHi]).failures = [] :=
  @C5_primary_success envAO stAO oracleOkAll [msgHi] "ok-anthropic" rfl rfl

/-- C6: when the primary provider fails and the next configured provider
succeeds, the returned result is tagged with the secondary provider's
name and the failure log contains exactly one entry, the primary's. -/
theorem C6_secondary_success {env : Env} {st : MultiAIProvider}
    {oracle : NetworkOracle} {msgs : List ChatMessage}
    {p₁ p₂ : AIProvider} {tl : List AIProvider} {e c : String}
    (h : MultiAIProvider.init env = .ok st)
    (hkeys : st.providers.map Prod.fst = p₁ :: p₂ :: tl)
    (h1 : oracle p₁ msgs = .failure e)
    (h2 : oracle p₂ msgs = .success c) :
    (st.chatCompletion oracle msgs).result =
      .ok { provider := p₂.value, content := c } ∧
    (st.chatCompletion oracle msgs).failures = [(p₁, e)] ∧
    (st.chatCompletion oracle msgs).attempts = [p₁, p₂] := by
  have hhead := init_keys_head h
  rw [hkeys] at hhead
  simp only [List.head?_cons, Option.some.injEq] at hhead
  subst hhead
  have hfb : st.getFallbackProvider = some p₂ := by
    rw [init_getFallback h, hkeys]
    rfl
  rw [chatCompletion_of_fallback_success h h1 hfb h2]
  exact ⟨rfl, rfl, rfl⟩

/-- Witness for C6: Anthropic primary answers HTTP 429, OpenRouter
secondary answers the completion. -/
theorem C6_secondary_success_witness :
    (stAO.chatCompletion oraclePrimaryDown [msgHi]).result =
      .ok { provider := AIProvider.openrouter.value, content := "Hello!" } ∧
    (stAO.chatCompletion oraclePrimaryDown [msgHi]).failures =
      [(AIProvider.anthropic, "HTTP 429")] ∧
    (stAO.chatCompletion oraclePrimaryDown [msgHi]).attempts =
      [AIProvider.anthropic, AIProvider.openrouter] :=
  @C6_secondary_success envAO stAO oraclePrimaryDown [msgHi]
    AIProvider.anthropic AIProvider.openrouter [] "HTTP 429" "Hello!"
    rfl rfl rfl rfl

/-- C7 is false of the code: a present system message with empty content
is dropped entirely — the `system` field is omitted although a system
message is present in the input. -/
theorem C7_counterexample :
    (msgsEmptySystem.filter (fun m => m.role == "system")).length = 1 ∧
    (anthropicPayload cfgAnthropicEx msgsEmptySystem).system = none ∧
    (anthropicPayload cfgAnthropicEx msgsEmptySystem).messages =
      [{ role := "user", content := "Hi" }] :=
  ⟨rfl, rfl, rfl⟩

/-- C7 (amended): with at most one system message, the Anthropic payload
carries the non-system messages in their original order with no system
message among them, and its `system` field holds the system message's
content exactly when that content is non-empty — the field is omitted
when there is no system message or its content is empty. -/
theorem C7_anthropic_translation {config : AIProviderConfig}
    {msgs : List ChatMessage}
    (h : (msgs.filter (fun m => m.role == "system")).length ≤ 1) :
    (anthropicPayload config msgs).messages =
      msgs.filter (fun m => m.role != "system") ∧
    (anthropicPayload config msgs).system =
      (match msgs.find? (fun m => m.role == "system") with
       | none => none
       | some m => if m.content = "" then none else some m.content) := by
  have hls := lastSystemContent_of_count_le_one h
  simp only [anthropicPayload, anthropicSplit_eq, hls]
  cases hf : msgs.find? (fun m => m.role == "system") with
  | none => simp
  | some m =>
    by_cases hc : m.content = "" <;> simp [hc]

/-- Witness for C7 (amended) at a concrete list with one non-empty system
message and one user message. -/
theorem C7_anthropic_translation_witness :
    (anthropicPayload cfgAnthropicEx
        ([{ role := "system", content := "Be brief." },
          { role := "user", content := "Hi" }] : List ChatMessage)).messages =
      List.filter (fun (m : ChatMessage) => m.role != "system")
        ([{ role := "system", content := "Be brief." },
          { role := "user", content := "Hi" }] : List ChatMessage) ∧
    (anthropicPayload cfgAnthropicEx
        ([{ role := "system", content := "Be brief." },
          { role := "user", content := "Hi" }] : List ChatMessage)).system =
      (match List.find? (fun (m : ChatMessage) => m.role == "system")
          ([{ role := "system", content := "Be brief." },
           { role := "user", content := "Hi" }] : List ChatMessage) with
       | none => none
       | some m => if m.content = "" then none else some m.content) :=
  @C7_anthropic_translation cfgAnthropicEx
    ([{ role := "system", content := "Be brief." },
      { role := "user", content := "Hi" }] : List ChatMessage) (by decide)

/-- C8: a chat-completion call never mutates the configuration built at
startup: the provider map and the primary designation after the call
equal those before it, whether the call returns a result or raises. -/
theorem C8_frame (st : MultiAIProvider) (oracle : NetworkOracle)
    (msgs : List ChatMessage) :
    (st.chatCompletion oracle msgs).post.providers = st.providers ∧
    (st.chatCompletion oracle msgs).post.current_provider =
      st.current_provider := by
  rw [chatCompletion_post]
  exact ⟨rfl, rfl⟩

/-- C9: every provider config in the configured set holds a non-empty
API key, and consequently every status-query entry reports
api_key_set = true. -/
theorem C9_api_key_set {env : Env} {st : MultiAIProvider}
    {pc : AIProvider × AIProviderConfig} {e : String × ProviderStatusEntry}
    (h : MultiAIProvider.init env = .ok st)
    (hpc : pc ∈ st.providers)
    (he : e ∈ (st.getProviderStatus).2) :
    pc.2.api_key ≠ "" ∧ e.2.api_key_set = true := by
  have hprov := init_providers h
  constructor
  · exact initializeProviders_api_key (hprov ▸ hpc)
  · simp only [MultiAIProvider.getProviderStatus] at he
    obtain ⟨pc2, hpc2, hval⟩ := List.mem_map.mp he
    have hkey := initializeProviders_api_key (hprov ▸ hpc2)
    rw [← hval]
    simpa using hkey

/-- Witness for C9 at the Anthropic entry of a concrete configuration. -/
theorem C9_api_key_set_witness :
    ((AIProvider.anthropic,
      ({ name := "Anthropic Claude", api_key := "a-key"
         base_url := "https://api.anthropic.com/v1/messages"
         model := "claude-3-sonnet-20240229", max_tokens := 4000
         available := true } : AIProviderConfig)) :
        AIProvider × AIProviderConfig).2.api_key ≠ "" ∧
    (("anthropic",
      ({ name := "Anthropic Claude", model := "claude-3-sonnet-20240229"
         available := true, api_key_set := true } : ProviderStatusEntry)) :
        String × ProviderStatusEntry).2.api_key_set = true :=
  @C9_api_key_set envAO stAO
    (AIProvider.anthropic,
      { name := "Anthropic Claude", api_key := "a-key"
        base_url := "https://api.anthropic.com/v1/messages"
        model := "claude-3-sonnet-20240229", max_tokens := 4000
        available := true })
    ("anthropic",
      { name := "Anthropic Claude", model := "claude-3-sonnet-20240229"
        available := true, api_key_set := true })
    rfl (by decide) (by decide)

/-- C10: during one chat-completion call no provider is attempted twice
and at most two providers are attempted in total: the primary first and,
on its failure, at most one fallback. -/
theorem C10_attempt_bounds {env : Env} {st : MultiAIProvider}
    (oracle : NetworkOracle) (msgs : List ChatMessage)
    (h : MultiAIProvider.init env = .ok st) :
    (st.chatCompletion oracle msgs).attempts.Nodup ∧
    (st.chatCompletion oracle msgs).attempts.length ≤ 2 ∧
    (st.chatCompletion oracle msgs).attempts.head? =
      some st.current_provider := by
  refine ⟨?_, ?_, chatCompletion_attempts_head st oracle msgs⟩
  · rcases chatCompletion_attempts_shape st oracle msgs with hsh | ⟨fb, hfb, hsh⟩
    · rw [hsh]; simp
    · rw [hsh]
      have hne := (init_fallback_spec h hfb).1
      simp [hne.symm]
  · rcases chatCompletion_attempts_shape st oracle msgs with hsh | ⟨fb, _, hsh⟩ <;>
      rw [hsh] <;> simp

/-- Witness for C10 at a concrete three-provider configuration with a
network failing every call (the maximal fallback chain). -/
theorem C10_attempt_bounds_witness :
    (stThree.chatCompletion oracleFailAll [msgHi]).attempts.Nodup ∧
    (stThree.chatCompletion oracleFailAll [msgHi]).attempts.length ≤ 2 ∧
    (stThree.chatCompletion oracleFailAll [msgHi]).attempts.head? =
      some stThree.current_provider :=
  @C10_attempt_bounds envThree stThree oracleFailAll [msgHi] rfl
